import Mathlib

/-
Shallow embedding of the download-orchestration core of rapid-photo-downloader
(src/raphodo/rapid.py).  Pure logic is translated into executable Lean
functions; the Qt slots become step functions on an explicit orchestrator
state.  Classes that the orchestrator calls into but whose sources are not part
of this repository snapshot (devices.py, downloadtracker.py, constants.py) are
modelled from the specification and marked as such in their doc comments.
-/

namespace Raphodo

/-- File types, from constants.py (used throughout rapid.py). -/
inductive FileType
  | photo
  | video
deriving DecidableEq

/-- Backup capabilities, from constants.py (BackupLocationType). -/
inductive BackupLocationType
  | photos
  | videos
  | photos_and_videos
deriving DecidableEq

/-- One backup destination.  Modelled from the spec: `BackupDevice` lives in
devices.py, which is not among the sources; the spec gives it a path and a
capability, keyed by path with one entry per distinct path.  The collection
`backup_devices` is modelled as the list of its entries. -/
structure BackupDevice where
  path : String
  backup_type : BackupLocationType
deriving DecidableEq

/-- The do_backup flag computed in RapidWindow.backupFile (rapid.py lines
1591-1596): a destination participates for a file exactly when its capability
matches the file type. -/
def do_backup_for (bt : BackupLocationType) (ft : FileType) : Bool :=
  (bt == BackupLocationType.photos_and_videos) ||
  (ft == FileType.photo && bt == BackupLocationType.photos) ||
  (ft == FileType.video && bt == BackupLocationType.videos)

/-- Modelled from the spec: `BackupDeviceCollection.backup_possible` is in
devices.py (not among the sources); the Resolver "matches discovered
backup-capable destinations to file types", so a backup is possible for a file
type when some registered destination's capability matches it. -/
def backup_possible (D : List BackupDevice) (ft : FileType) : Bool :=
  D.any fun d => do_backup_for d.backup_type ft

/-- Modelled from the spec: the Resolver "maintains running counts of
photo-capable and video-capable destinations" (devices.py is not among the
sources). -/
def no_backup_devices_for (D : List BackupDevice) (ft : FileType) : Nat :=
  (D.filter fun d => do_backup_for d.backup_type ft).length

/-- Count of photo-capable destinations (see no_backup_devices_for). -/
def no_photo_backup_devices (D : List BackupDevice) : Nat :=
  no_backup_devices_for D FileType.photo

/-- Count of video-capable destinations (see no_backup_devices_for). -/
def no_video_backup_devices (D : List BackupDevice) : Nat :=
  no_backup_devices_for D FileType.video

/-- Preferences consulted by the orchestrator code under consideration
(preferences.py itself is out of scope; these are plain stored values). -/
structure Prefs where
  backup_files : Bool
  backup_device_autodetection : Bool
  photo_backup_identifier : String
  video_backup_identifier : String
  backup_photo_location : String
  backup_video_location : String
  photo_download_folder : String
  video_download_folder : String
  generate_thumbnails : Bool
  backup_duplicate_overwrite : Bool
  verify_file : Bool

/-- Abstraction of the filesystem facts the orchestrator queries:
os.path.isdir and os.access(..., os.W_OK). -/
structure FsEnv where
  isdir : String → Bool
  writable : String → Bool

/-- os.path.join as used with a single identifier component. -/
def joinPath (a b : String) : String := a ++ "/" ++ b

/-- RapidWindow.manualBackupPathAvailable (rapid.py lines 2771-2772). -/
def manualBackupPathAvailable (env : FsEnv) (path : String) : Bool :=
  env.writable path

/-- RapidWindow.isBackupPath (rapid.py lines 2726-2769): resolves the backup
capability of a prospective path.  With autodetection, the presence of a
writable marker subfolder per file type decides; otherwise the path is
compared literally with the configured destinations (photo location first)
and must be writable.  Python falls through to `return None` in every
remaining case, including when backups are disabled. -/
def isBackupPath (prefs : Prefs) (env : FsEnv) (path : String) :
    Option BackupLocationType :=
  if prefs.backup_files then
    if prefs.backup_device_autodetection then
      let photo_path := joinPath path prefs.photo_backup_identifier
      let p_backup := env.isdir photo_path && env.writable photo_path
      let video_path := joinPath path prefs.video_backup_identifier
      let v_backup := env.isdir video_path && env.writable video_path
      if p_backup && v_backup then some BackupLocationType.photos_and_videos
      else if p_backup then some BackupLocationType.photos
      else if v_backup then some BackupLocationType.videos
      else none
    else if path = prefs.backup_photo_location then
      if manualBackupPathAvailable env path then some BackupLocationType.photos
      else none
    else if path = prefs.backup_video_location then
      if manualBackupPathAvailable env path then some BackupLocationType.videos
      else none
    else none
  else none

/-- The photo marker check of autodetection in isBackupPath: the photo
identifier subfolder exists and is writable (rapid.py lines 2743-2746). -/
def photoMarkerOk (prefs : Prefs) (env : FsEnv) (path : String) : Bool :=
  let p := joinPath path prefs.photo_backup_identifier
  env.isdir p && env.writable p

/-- The video marker check of autodetection in isBackupPath: the video
identifier subfolder exists and is writable (rapid.py lines 2747-2750). -/
def videoMarkerOk (prefs : Prefs) (env : FsEnv) (path : String) : Bool :=
  let p := joinPath path prefs.video_backup_identifier
  env.isdir p && env.writable p

/-- RapidWindow.setupManualBackup (rapid.py lines 2685-2724): distinct photo
and video locations give one single-type destination each; a shared location
gives one photos-and-videos destination. -/
def setupManualBackup (prefs : Prefs) : List BackupDevice :=
  if prefs.backup_photo_location ≠ prefs.backup_video_location then
    [⟨prefs.backup_photo_location, BackupLocationType.photos⟩,
     ⟨prefs.backup_video_location, BackupLocationType.videos⟩]
  else
    [⟨prefs.backup_photo_location, BackupLocationType.photos_and_videos⟩]

/-- Formal reading of the claim sentence for manual (non-autodetected) backup
configuration: the capability is determined by literal path equality alone.
Kept separate from isBackupPath for comparison with the source. -/
def claimManualCapability (prefs : Prefs) (path : String) :
    Option BackupLocationType :=
  if path = prefs.backup_photo_location then some BackupLocationType.photos
  else if path = prefs.backup_video_location then some BackupLocationType.videos
  else none

/-- The state of the JobCode coordinator (rapid.py lines 306-340). -/
structure JobCodeState where
  job_code : String
  need_job_code_for_naming : Bool
  prompting_for_job_code : Bool
  job_codes : List String
deriving DecidableEq

/-- Outcome of the modal JobCodeDialog (rapid.py lines 269-303): whether the
user accepted, the code entered, and the remember checkbox. -/
structure DialogOutcome where
  accepted : Bool
  code : String
  remember : Bool
deriving DecidableEq

/-- JobCode.get_job_code (rapid.py lines 313-334).  The modal dialog is
modelled by passing its outcome as an argument; a state whose
prompting_for_job_code flag is set represents the situation in which the
dialog of an earlier request is still open and a further request arrives.
Returns the new state, the number of prompts opened by this request, and
whether startDownload was invoked. -/
def get_job_code (s : JobCodeState) (d : DialogOutcome) :
    JobCodeState × Nat × Bool :=
  if s.prompting_for_job_code then (s, 0, false)
  else if d.accepted then
    if d.code ≠ "" then
      let codes :=
        if d.remember then d.code :: s.job_codes.filter (fun c => c ≠ d.code)
        else s.job_codes
      ({ s with prompting_for_job_code := false, job_code := d.code,
                job_codes := codes }, 1, true)
    else ({ s with prompting_for_job_code := false }, 1, false)
  else ({ s with prompting_for_job_code := false }, 1, false)

/-- JobCode.need_to_prompt_on_auto_start (rapid.py lines 336-337). -/
def need_to_prompt_on_auto_start (s : JobCodeState) : Bool :=
  s.job_code == "" && s.need_job_code_for_naming

/-- JobCode.need_to_prompt (rapid.py lines 339-340). -/
def need_to_prompt (s : JobCodeState) : Bool :=
  s.need_job_code_for_naming && !s.prompting_for_job_code

/-- Modelled from the spec: the device lifecycle states of the pipeline state
machine (DeviceState is defined in constants.py, which is not among the
sources).  The orchestrator code in rapid.py assigns only scanning, scanned
and downloading. -/
inductive DeviceState
  | registered
  | scanning
  | scanned
  | download_pending
  | downloading
  | completed
  | errored
  | removed
deriving DecidableEq

/-- Per-device discovered-file counters (devices.py FileTypeCounter,
modelled from the spec's "discovered-file counters split photo/video"). -/
structure FileTypeCounter where
  photos : Nat
  videos : Nat
deriving DecidableEq

/-- Registry entry for one attached device. -/
structure DeviceRec where
  state : DeviceState
  counter : FileTypeCounter
  file_size_sum : Nat
  display_name : String
deriving DecidableEq

/-- Modelled from the spec: the per-file lifecycle status (DownloadStatus in
constants.py, not among the sources); rapid.py consults
downloaded_with_warning and the terminal states. -/
inductive DownloadStatus
  | download_pending
  | downloaded
  | downloaded_with_warning
  | download_failed
deriving DecidableEq

/-- The fields of an RPDFile that the orchestrator logic reads. -/
structure RPDFileRec where
  unique_id : String
  scan_id : Nat
  file_type : FileType
  size : Nat
  status : DownloadStatus
deriving DecidableEq

/-- The mutable orchestrator state owned by RapidWindow that the embedded
handlers read and write: the device registry, the set of active downloads,
the backup destination registry, the thumbnail model's files, the per-stage
worker tables, and the download tracker's counters. -/
structure OrchState where
  devices : List (Nat × DeviceRec)
  active_downloads_by_scan_id : List Nat
  backup_devices : List BackupDevice
  files : List RPDFileRec
  scan_workers : List Nat
  copy_workers : List Nat
  backup_workers : List String
  tracker_no_photo_backup_devices : Nat
  tracker_no_video_backup_devices : Nat
  tracker_all_files_backed_up : Bool
  tracker_file_types_present : List (Nat × String)
  next_scan_id : Nat
deriving DecidableEq

/-- Lookup of a device registry entry by its scan id
(`self.devices[scan_id]`). -/
def lookupDevice (ds : List (Nat × DeviceRec)) (scan_id : Nat) :
    Option DeviceRec :=
  (ds.find? fun p => p.1 == scan_id).map Prod.snd

/-- Membership test `scan_id in self.devices`. -/
def hasDevice (ds : List (Nat × DeviceRec)) (scan_id : Nat) : Bool :=
  (ds.find? fun p => p.1 == scan_id).isSome

/-- Point update of one registry entry. -/
def updateDeviceRec (ds : List (Nat × DeviceRec)) (scan_id : Nat)
    (g : DeviceRec → DeviceRec) : List (Nat × DeviceRec) :=
  ds.map fun p => if p.1 == scan_id then (p.1, g p.2) else p

/-- RapidWindow.downloadIsRunning (rapid.py lines 1287-1301): true when a
file is currently being downloaded, renamed or backed up. -/
def downloadIsRunning (prefs : Prefs) (st : OrchState) : Bool :=
  if st.active_downloads_by_scan_id.length == 0 then
    if prefs.backup_files then
      if st.tracker_all_files_backed_up then false else true
    else false
  else true

/-- The global-completion decision of RapidWindow.fileDownloadFinished
(rapid.py lines 1768-1796): once the per-device bookkeeping of a terminal
per-file event is done, the completion notification, the re-enabling of
preferences and refresh, and the reset of the per-session counters run
exactly when downloadIsRunning has become false. -/
def globalCompletionReported (prefs : Prefs) (st : OrchState) : Bool :=
  !(downloadIsRunning prefs st)

/-- Formal reading of the claim sentence: every registered device is in the
Completed or Removed state.  (A removed device has in fact been deleted from
the registry by removeDevice, and the code never assigns Completed: on
completion a device is set back to scanned, rapid.py line 1754.) -/
def allDevicesCompletedOrRemoved (st : OrchState) : Bool :=
  st.devices.all fun p =>
    p.2.state == DeviceState.completed || p.2.state == DeviceState.removed

/-- RapidWindow.copyfilesFinished (rapid.py lines 1550-1552), the slot
connected to the copy stage's workerFinished signal: its body is `pass`. -/
def copyfilesFinished (st : OrchState) : OrchState := st

/-- RapidWindow.fileRenamedAndMovedFinished (rapid.py lines 1666-1668), the
slot connected to the rename stage's workerFinished signal: its body is
`pass`. -/
def fileRenamedAndMovedFinished (st : OrchState) : OrchState := st

/-- The file types marked for download, thumbnaildisplay.py DownloadTypes as
consumed by rapid.py. -/
structure DownloadTypes where
  photos : Bool
  videos : Bool
deriving DecidableEq

/-- BackupMissing as built in rapid.py line 2084. -/
structure BackupMissing where
  photo : Bool
  video : Bool
deriving DecidableEq

/-- RapidWindow.isValidDownloadDir (rapid.py lines 2014-2052): the directory
must exist and be writable. -/
def isValidDownloadDir (env : FsEnv) (path : String) : Bool :=
  env.isdir path && env.writable path

/-- RapidWindow.invalidDownloadFolders (rapid.py lines 1995-2012). -/
def invalidDownloadFolders (prefs : Prefs) (env : FsEnv)
    (downloading : DownloadTypes) : List String :=
  (if downloading.photos &&
      !(isValidDownloadDir env prefs.photo_download_folder) then
    [prefs.photo_download_folder]
  else []) ++
  (if downloading.videos &&
      !(isValidDownloadDir env prefs.video_download_folder) then
    [prefs.video_download_folder]
  else [])

/-- RapidWindow.backupDestinationsMissing (rapid.py lines 2068-2085). -/
def backupDestinationsMissing (prefs : Prefs) (D : List BackupDevice)
    (downloading : DownloadTypes) : Option BackupMissing :=
  if prefs.backup_files && prefs.backup_device_autodetection then
    let photo_missing := downloading.photos && !(backup_possible D FileType.photo)
    let video_missing := downloading.videos && !(backup_possible D FileType.video)
    if !(photo_missing || video_missing) then none
    else some ⟨photo_missing, video_missing⟩
  else none

/-- Observable outcome of RapidWindow.startDownloadPhase2: whether a blocking
critical diagnostic was raised, the invalid folders it names, whether a
backup warning was logged, and whether the download was actually started
(files marked download-pending and copy workers launched). -/
structure Phase2Outcome where
  blocking_error : Bool
  invalid_dirs : List String
  backup_warning : Option BackupMissing
  download_started : Bool
deriving DecidableEq

/-- RapidWindow.startDownloadPhase2 (rapid.py lines 1338-1409): invalid
download folders raise a critical "Download cannot proceed" diagnostic and
nothing is started; otherwise a missing backup destination is logged as a
warning ("Backup problem") and the download proceeds regardless. -/
def startDownloadPhase2 (prefs : Prefs) (env : FsEnv) (D : List BackupDevice)
    (downloading : DownloadTypes) : Phase2Outcome :=
  let invalid := invalidDownloadFolders prefs env downloading
  if !invalid.isEmpty then
    ⟨true, invalid, none, false⟩
  else
    ⟨false, [], backupDestinationsMissing prefs D downloading, true⟩

/-- Modelled from the spec: the backup bookkeeping of
downloadtracker.DownloadTracker (downloadtracker.py is not among the
sources).  The spec requires the count of backup results per file to be
tracked, not just a boolean; the tracker also stores the destination counts
pushed to it by set_no_backup_devices. -/
structure BackupTracker where
  backups_performed : List (String × Nat)
  no_photo_backup_devices : Nat
  no_video_backup_devices : Nat
deriving DecidableEq

/-- Number of backup results recorded by the tracker for one file. -/
def backupsPerformed (t : BackupTracker) (uid : String) : Nat :=
  ((t.backups_performed.find? fun p => p.1 == uid).map Prod.snd).getD 0

/-- Modelled from the spec: DownloadTracker.file_backed_up records one more
backup result for the file (rapid.py line 1632 passes no success flag, so
the tracker cannot distinguish successful from failed results). -/
def file_backed_up (t : BackupTracker) (uid : String) : BackupTracker :=
  { t with backups_performed :=
      if (t.backups_performed.find? fun p => p.1 == uid).isSome then
        t.backups_performed.map fun p =>
          if p.1 == uid then (p.1, p.2 + 1) else p
      else (uid, 1) :: t.backups_performed }

/-- The destination count the tracker holds for a file type. -/
def no_devices_for (t : BackupTracker) (ft : FileType) : Nat :=
  match ft with
  | FileType.photo => t.no_photo_backup_devices
  | FileType.video => t.no_video_backup_devices

/-- Modelled from the spec: DownloadTracker.file_backed_up_to_all_locations —
the file's recorded result count has reached the number of registered
destinations whose capability matches its file type. -/
def file_backed_up_to_all_locations (t : BackupTracker) (uid : String)
    (ft : FileType) : Bool :=
  backupsPerformed t uid == no_devices_for t ft

/-- One message of the backup manager's message signal as received by
RapidWindow.fileBackedUp (device_id, backup_succeeded, do_backup, rpd_file);
backup workers are keyed here by their destination path. -/
structure BackupResultMsg where
  device_id : String
  backup_succeeded : Bool
  do_backup : Bool
  uid : String
  file_type : FileType
deriving DecidableEq

/-- RapidWindow.fileBackedUp (rapid.py lines 1614-1638): a result whose
do_backup flag is set is recorded with the tracker — with no regard to
backup_succeeded — and when the file is thereby backed up to all locations,
fileDownloadFinished is triggered (the returned Bool). -/
def fileBackedUp (t : BackupTracker) (m : BackupResultMsg) :
    BackupTracker × Bool :=
  if m.do_backup then
    let t1 := file_backed_up t m.uid
    (t1, file_backed_up_to_all_locations t1 m.uid m.file_type)
  else (t, false)

/-- Folds fileBackedUp over a sequence of arriving backup results, recording
whether fileDownloadFinished was triggered at any point. -/
def processBackupResults (t : BackupTracker) (ms : List BackupResultMsg) :
    BackupTracker × Bool :=
  ms.foldl (fun acc m =>
    ((fileBackedUp acc.1 m).1, acc.2 || (fileBackedUp acc.1 m).2)) (t, false)

/-- Number of backup results in a sequence whose do_backup flag is set, i.e.
the results the tracker will record. -/
def countTrue (ms : List BackupResultMsg) : Nat :=
  (ms.filter fun m => m.do_backup).length

/-- The payload sent to one backup worker, BackupFileData as built in
RapidWindow.backupFile (rapid.py lines 1606-1612). -/
structure BackupFileData where
  uid : String
  file_type : FileType
  move_succeeded : Bool
  do_backup : Bool
  backup_duplicate_overwrite : Bool
  verify_file : Bool
  download_count : Nat
deriving DecidableEq

/-- RapidWindow.backupFile (rapid.py lines 1575-1612): one message is sent to
every registered backup destination — even those that will not back the file
up, so that every destination produces a result — with the do_backup flag
telling the worker whether its capability matches the file type. -/
def backupFile (prefs : Prefs) (D : List BackupDevice) (f : RPDFileRec)
    (move_succeeded : Bool) (download_count : Nat) :
    List (String × BackupFileData) :=
  D.map fun dev =>
    (dev.path,
     ⟨f.unique_id, f.file_type, move_succeeded,
      do_backup_for dev.backup_type f.file_type,
      prefs.backup_duplicate_overwrite, prefs.verify_file, download_count⟩)

/-- What RapidWindow.fileRenamedAndMoved does after its GUI bookkeeping:
either dispatch a round of backup requests, or report the file finished at
once. -/
inductive RenameMovedOutcome
  | backupRequests (msgs : List (String × BackupFileData))
  | finished (succeeded : Bool)
deriving DecidableEq

/-- RapidWindow.fileRenamedAndMoved (rapid.py lines 1554-1573): with backups
enabled and a destination capable of the file's type, backupFile dispatches
the requests; otherwise fileDownloadFinished is called directly. -/
def fileRenamedAndMoved (prefs : Prefs) (D : List BackupDevice)
    (f : RPDFileRec) (move_succeeded : Bool) (download_count : Nat) :
    RenameMovedOutcome :=
  if prefs.backup_files then
    if backup_possible D f.file_type then
      RenameMovedOutcome.backupRequests
        (backupFile prefs D f move_succeeded download_count)
    else RenameMovedOutcome.finished move_succeeded
  else RenameMovedOutcome.finished move_succeeded

/-- Whether the orchestrator treats a file as fully backed up — that is,
fileDownloadFinished fires for it — given the registered destinations, the
tracker state and the backup results received so far: immediately when no
backup round is dispatched, and through fileBackedUp otherwise. -/
def treatedFullyBackedUp (prefs : Prefs) (t : BackupTracker)
    (D : List BackupDevice) (f : RPDFileRec) (move_succeeded : Bool)
    (download_count : Nat) (responses : List BackupResultMsg) : Bool :=
  match fileRenamedAndMoved prefs D f move_succeeded download_count with
  | RenameMovedOutcome.finished _ => true
  | RenameMovedOutcome.backupRequests _ => (processBackupResults t responses).2

/-- Formal reading of the claim sentence: the file has received a successful
backup result from every currently registered destination whose capability
matches its file type. -/
def successfulFromAllMatching (D : List BackupDevice) (ft : FileType)
    (responses : List BackupResultMsg) : Bool :=
  D.all fun dev =>
    !(do_backup_for dev.backup_type ft) ||
    responses.any fun r =>
      r.device_id == dev.path && r.do_backup && r.backup_succeeded

/-- The amended reading: the file has received a backup result — successful
or not — from every currently registered destination whose capability
matches its file type. -/
def resultFromAllMatching (D : List BackupDevice) (ft : FileType)
    (responses : List BackupResultMsg) : Bool :=
  D.all fun dev =>
    !(do_backup_for dev.backup_type ft) ||
    responses.any fun r => r.device_id == dev.path && r.do_backup

/-- RapidWindow.removeDevice (rapid.py lines 2581-2598): guarded by
`if scan_id in self.devices`; when present, the device's files other than the
downloaded ones are cleared, its scan and copy workers are stopped, and the
registry entry is deleted.  When absent, nothing happens. -/
def removeDevice (st : OrchState) (scan_id : Nat) : OrchState :=
  if hasDevice st.devices scan_id then
    { st with
      devices := st.devices.filter fun p => !(p.1 == scan_id),
      files := st.files.filter fun f =>
        !(f.scan_id == scan_id) ||
        (f.status == DownloadStatus.downloaded ||
         f.status == DownloadStatus.downloaded_with_warning),
      scan_workers := st.scan_workers.filter fun w => !(w == scan_id),
      copy_workers := st.copy_workers.filter fun w => !(w == scan_id) }
  else st

/-- The facts about a mount event that rapid.py obtains from its mount
collaborators (monitorPartitionChanges, partitionValid, shouldScanMountPath,
known_device and the scan-even-if-no-DCIM prompt decision). -/
structure MountEnv where
  monitor_partition_changes : Bool
  partition_valid : Bool
  should_scan_mount_path : Bool
  device_known : Bool
  prompt_before_use : Bool
  display_name : String

/-- RapidWindow.partitionMounted (rapid.py lines 2514-2549): a valid mounted
partition that resolves to a backup capability is added to the backup
registry — unless its path is already registered, in which case nothing at
all is done — with the tracker's destination counts refreshed from the
collection; otherwise a device scan may be prepared
(prepareNonCameraDeviceScan, lines 2502-2512). -/
def partitionMounted (prefs : Prefs) (fs : FsEnv) (env : MountEnv)
    (st : OrchState) (path : String) : OrchState :=
  if env.monitor_partition_changes then
    if env.partition_valid then
      match isBackupPath prefs fs path with
      | some bt =>
        if st.backup_devices.any fun d => d.path == path then st
        else
          let D1 := st.backup_devices ++ [⟨path, bt⟩]
          { st with backup_devices := D1,
                    backup_workers := st.backup_workers ++ [path],
                    tracker_no_photo_backup_devices := no_photo_backup_devices D1,
                    tracker_no_video_backup_devices := no_video_backup_devices D1 }
      | none =>
        if env.should_scan_mount_path then
          if env.device_known then st
          else if env.prompt_before_use then st
          else
            { st with
              devices := st.devices ++
                [(st.next_scan_id,
                  ⟨DeviceState.scanning, ⟨0, 0⟩, 0, env.display_name⟩)],
              scan_workers := st.scan_workers ++ [st.next_scan_id],
              next_scan_id := st.next_scan_id + 1 }
        else st
    else st
  else st

/-- ScanResults as consumed by RapidWindow.scanMessageReceived: either a
non-empty batch of discovered files (first file held separately, its scan_id
identifies the device), or a device-level message carrying an optional error
code and the canonical display name. -/
structure ScanResultsMsg where
  rpd_files : Option (RPDFileRec × List RPDFileRec)
  file_type_counter : FileTypeCounter
  file_size_sum : Nat
  scan_id : Nat
  error_code : Option Bool
  optimal_display_name : String
deriving DecidableEq

/-- The scan id a ScanResults message refers to (rapid.py lines 2101 and
2113). -/
def scanMsgScanId (msg : ScanResultsMsg) : Nat :=
  match msg.rpd_files with
  | some (f0, _) => f0.scan_id
  | none => msg.scan_id

/-- RapidWindow.scanMessageReceived (rapid.py lines 2087-2158).  A message
whose scan id is no longer registered returns at once, before any mutation.
Otherwise a file batch updates the device's running totals and adds the files
to the thumbnail model; an error message asks the user to retry (resuming the
worker) or ignore (removing the device); a plain device message updates the
display name. -/
def scanMessageReceived (st : OrchState) (msg : ScanResultsMsg)
    (user_retries : Bool) : OrchState :=
  match msg.rpd_files with
  | some (f0, fs) =>
    if hasDevice st.devices f0.scan_id then
      { st with
        devices := updateDeviceRec st.devices f0.scan_id fun d =>
          { d with counter := msg.file_type_counter,
                   file_size_sum := msg.file_size_sum },
        files := st.files ++ (f0 :: fs) }
    else st
  | none =>
    if hasDevice st.devices msg.scan_id then
      match msg.error_code with
      | some _ =>
        if user_retries then st
        else removeDevice st msg.scan_id
      | none =>
        { st with devices := updateDeviceRec st.devices msg.scan_id fun d =>
            { d with display_name := msg.optimal_display_name } }
    else st

/-- Modelled from the spec: FileTypeCounter.summarize_file_count of rpdfile.py
(not among the sources) reports which file types a scan discovered. -/
def fileTypesPresent (c : FileTypeCounter) : String :=
  if c.photos > 0 && c.videos > 0 then "photos and videos"
  else if c.photos > 0 then "photos"
  else if c.videos > 0 then "videos"
  else ""

/-- Point update of the tracker's file-types-present table. -/
def setTrackerFileTypes (l : List (Nat × String)) (scan_id : Nat)
    (s : String) : List (Nat × String) :=
  if (l.find? fun p => p.1 == scan_id).isSome then
    l.map fun p => if p.1 == scan_id then (p.1, s) else p
  else (scan_id, s) :: l

/-- The follow-up action RapidWindow.scanFinished initiates. -/
inductive ScanFinishedAction
  | noAction
  | generateThumbnails (scan_id : Nat)
  | promptForJobCode
  | startDownload (scan_id : Nat)
deriving DecidableEq

/-- RapidWindow.scanFinished (rapid.py lines 2160-2184), the slot connected
to the scan stage's workerFinished signal.  A stale scan id returns before
any mutation; otherwise the tracker learns the file types present and either
thumbnail generation, the job-code prompt, or the download is initiated. -/
def scanFinished (prefs : Prefs) (jc : JobCodeState) (auto_start : Bool)
    (st : OrchState) (scan_id : Nat) : OrchState × ScanFinishedAction :=
  match lookupDevice st.devices scan_id with
  | none => (st, ScanFinishedAction.noAction)
  | some d =>
    let st1 := { st with tracker_file_types_present :=
      (setTrackerFileTypes st.tracker_file_types_present scan_id
        (fileTypesPresent d.counter)) }
    if !auto_start && prefs.generate_thumbnails then
      ({ st1 with devices := updateDeviceRec st1.devices scan_id fun dd =>
          { dd with state := DeviceState.scanned } },
       ScanFinishedAction.generateThumbnails scan_id)
    else if auto_start then
      if need_to_prompt_on_auto_start jc then
        ({ st1 with devices := updateDeviceRec st1.devices scan_id fun dd =>
            { dd with state := DeviceState.scanned } },
         ScanFinishedAction.promptForJobCode)
      else (st1, ScanFinishedAction.startDownload scan_id)
    else (st1, ScanFinishedAction.noAction)

/-- Modelled from the spec: downloadtracker.TimeRemaining (downloadtracker.py
is not among the sources) keeps the outstanding byte count per device; each
bytes-transferred chunk reported by copyfilesBytesDownloaded (rapid.py lines
1536-1548, chunks asserted non-negative) reduces it.  Successive updates are
folded over the outstanding count, which cannot drop below zero. -/
def applyByteUpdates (outstanding : Nat) (updates : List Nat) : Nat :=
  updates.foldl (fun acc b => acc - b) outstanding

/-- Modelled from the spec: the remaining-time figure is bytes-outstanding
divided by the most recent transfer rate (spec section 4.4); rapid.py's
updateTimeRemaining (lines 1798-1828) formats this figure. -/
def timeRemainingSecs (rate : ℚ) (outstanding : Nat) : ℚ :=
  (outstanding : ℚ) / rate

/-- Example preferences with backups enabled and autodetected. -/
def examplePrefs : Prefs :=
  ⟨true, true, "p", "v", "/bx", "/by", "/ph", "/vid", false, false, false⟩

/-- Example preferences with backups enabled, manually configured. -/
def examplePrefsManual : Prefs :=
  ⟨true, false, "p", "v", "/b", "/v", "/ph", "/vid", false, false, false⟩

/-- Example preferences with backups disabled. -/
def examplePrefsNoBackup : Prefs :=
  ⟨false, false, "", "", "", "", "/ph", "/vid", false, false, false⟩

/-- Example filesystem in which every path exists and is writable. -/
def exampleFsAllOk : FsEnv := ⟨fun _ => true, fun _ => true⟩

/-- Example filesystem in which no path exists or is writable. -/
def exampleFsNone : FsEnv := ⟨fun _ => false, fun _ => false⟩

/-- Example registry entry: a device that has finished scanning. -/
def exampleDeviceScanned : DeviceRec :=
  ⟨DeviceState.scanned, ⟨1, 0⟩, 100, "camera"⟩

/-- Example registry entry: a device mid-download. -/
def exampleDeviceDownloading : DeviceRec :=
  ⟨DeviceState.downloading, ⟨1, 0⟩, 100, "camera"⟩

/-- Example file still awaiting download. -/
def examplePendingFile : RPDFileRec :=
  ⟨"u1", 0, FileType.photo, 100, DownloadStatus.download_pending⟩

/-- Example orchestrator state: one scanned device, no active download. -/
def exampleStateScanned : OrchState :=
  ⟨[(0, exampleDeviceScanned)], [], [], [], [], [], [], 0, 0, true, [], 1⟩

/-- Example orchestrator state at the moment a copy worker dies: its device
is mid-download with one file still pending. -/
def exampleStateCrash : OrchState :=
  ⟨[(0, exampleDeviceDownloading)], [0], [], [examplePendingFile], [], [0],
   [], 0, 0, true, [], 1⟩

/-- Example backup registry: a single photo-capable destination. -/
def exampleBackupDevices : List BackupDevice :=
  [⟨"/bk", BackupLocationType.photos⟩]

/-- Example backup registry with two destinations of different capability. -/
def exampleTwoBackupDevices : List BackupDevice :=
  [⟨"/a", BackupLocationType.photos⟩, ⟨"/b", BackupLocationType.videos⟩]

/-- Example tracker whose destination counts agree with
exampleBackupDevices. -/
def exampleTracker : BackupTracker := ⟨[], 1, 0⟩

/-- Example photo file after copy and rename. -/
def examplePhotoFile : RPDFileRec :=
  ⟨"u1", 0, FileType.photo, 100, DownloadStatus.downloaded⟩

/-- Example backup result: the matching destination reports failure. -/
def exampleFailedResponse : BackupResultMsg :=
  ⟨"/bk", false, true, "u1", FileType.photo⟩

/-- Example backup result: the matching destination reports success. -/
def exampleOkResponse : BackupResultMsg :=
  ⟨"/bk", true, true, "u1", FileType.photo⟩

/-- Example job-code state in which a prompt is currently open. -/
def exampleJobCodePrompting : JobCodeState := ⟨"", true, true, []⟩

/-- Example dialog outcome: accepted with a remembered code. -/
def exampleDialogOutcome : DialogOutcome := ⟨true, "HOLIDAY", true⟩

/-- Example scan message for a device id that is not registered. -/
def exampleScanMsg : ScanResultsMsg := ⟨none, ⟨0, 0⟩, 0, 7, none, "cam2"⟩

/-- Example mount-event facts: monitored, valid, scannable, unknown. -/
def exampleMountEnv : MountEnv := ⟨true, true, true, false, false, "vol"⟩

/-- Example orchestrator state whose backup registry already holds the path
"/bk", with tracker counters matching. -/
def exampleStateWithBackup : OrchState :=
  ⟨[], [], exampleBackupDevices, [], [], [], ["/bk"], 1, 0, true, [], 1⟩

theorem lookupDevice_eq_none_of_hasDevice_false
    {ds : List (Nat × DeviceRec)} {sid : Nat}
    (h : hasDevice ds sid = false) : lookupDevice ds sid = none := by
  unfold lookupDevice
  unfold hasDevice at h
  cases hf : ds.find? fun p => p.1 == sid with
  | none => rfl
  | some v => rw [hf] at h; simp at h

/-- C2: at most one interactive job-code prompt is ever outstanding: a
get_job_code request that arrives while a prompt is already active
(prompting_for_job_code set) is a no-op — the coordinator state is unchanged,
no second prompt is opened, and no waiting device transition (startDownload)
proceeds; only the resolution of the first prompt can do that. -/
theorem get_job_code_while_prompting_is_noop (s : JobCodeState)
    (d : DialogOutcome) (h : s.prompting_for_job_code = true) :
    get_job_code s d = (s, 0, false) := by
  simp [get_job_code, h]

/-- Witness for C2 at a concrete mid-prompt state. -/
theorem get_job_code_while_prompting_is_noop_witness :
    exampleJobCodePrompting.prompting_for_job_code = true ∧
    get_job_code exampleJobCodePrompting exampleDialogOutcome =
      (exampleJobCodePrompting, 0, false) :=
  ⟨rfl, get_job_code_while_prompting_is_noop exampleJobCodePrompting
    exampleDialogOutcome rfl⟩

/-- C5 fails on the code: the worker-finished handlers connected to the copy
and rename stages do nothing, so at this concrete state — a crashed copy
worker's device with one still-pending file — the file is left pending and
is never marked failed. -/
theorem worker_crash_leaves_pending_file_unfailed :
    ((fileRenamedAndMovedFinished (copyfilesFinished exampleStateCrash)).files.any
        fun f => f.status == DownloadStatus.download_pending) = true ∧
    ((fileRenamedAndMovedFinished (copyfilesFinished exampleStateCrash)).files.any
        fun f => f.status == DownloadStatus.download_failed) = false := by
  decide

/-- C5 amended: when a worker exits — expectedly or not — the orchestrator's
worker-finished handlers re-dispatch nothing to it and change no state at
all; in particular the crashed worker's still-pending files are left as they
were rather than being marked failed. -/
theorem workerFinished_handlers_are_noops (st : OrchState) :
    copyfilesFinished st = st ∧ fileRenamedAndMovedFinished st = st :=
  ⟨rfl, rfl⟩

/-- C8: registry operations are idempotent — removing an unregistered scan id
leaves the state unchanged, and a mount event for a path already registered
as backup destination neither adds a second entry nor changes the
destination counters. -/
theorem registry_operations_idempotent (prefs : Prefs) (fs : FsEnv)
    (env : MountEnv) (st : OrchState) (scan_id : Nat) (path : String)
    (h1 : hasDevice st.devices scan_id = false)
    (h2 : (st.backup_devices.any fun d => d.path == path) = true) :
    removeDevice st scan_id = st ∧
    (partitionMounted prefs fs env st path).backup_devices =
      st.backup_devices ∧
    (partitionMounted prefs fs env st path).tracker_no_photo_backup_devices =
      st.tracker_no_photo_backup_devices ∧
    (partitionMounted prefs fs env st path).tracker_no_video_backup_devices =
      st.tracker_no_video_backup_devices := by
  constructor
  · simp [removeDevice, h1]
  · unfold partitionMounted
    repeat' split
    all_goals simp_all

/-- Witness for C8 at a concrete state with an already-registered backup
path and an unknown scan id. -/
theorem registry_operations_idempotent_witness :
    removeDevice exampleStateWithBackup 5 = exampleStateWithBackup ∧
    (partitionMounted examplePrefs exampleFsAllOk exampleMountEnv
        exampleStateWithBackup "/bk").backup_devices =
      exampleStateWithBackup.backup_devices ∧
    (partitionMounted examplePrefs exampleFsAllOk exampleMountEnv
        exampleStateWithBackup "/bk").tracker_no_photo_backup_devices =
      exampleStateWithBackup.tracker_no_photo_backup_devices ∧
    (partitionMounted examplePrefs exampleFsAllOk exampleMountEnv
        exampleStateWithBackup "/bk").tracker_no_video_backup_devices =
      exampleStateWithBackup.tracker_no_video_backup_devices :=
  registry_operations_idempotent examplePrefs exampleFsAllOk exampleMountEnv
    exampleStateWithBackup 5 "/bk" (by decide) (by decide)

/-- C10: a scan result or scan-finished event whose device id is no longer
registered is discarded before any mutation: the registry, the tracker
tables and the models embedded in the orchestrator state are unchanged, and
no follow-up action is initiated. -/
theorem stale_scan_events_discarded (prefs : Prefs) (jc : JobCodeState)
    (auto_start : Bool) (st : OrchState) (msg : ScanResultsMsg)
    (user_retries : Bool) (sid : Nat)
    (h1 : hasDevice st.devices (scanMsgScanId msg) = false)
    (h2 : hasDevice st.devices sid = false) :
    scanMessageReceived st msg user_retries = st ∧
    scanFinished prefs jc auto_start st sid =
      (st, ScanFinishedAction.noAction) := by
  constructor
  · unfold scanMessageReceived
    cases hr : msg.rpd_files with
    | none =>
      have h3 : hasDevice st.devices msg.scan_id = false := by
        simpa [scanMsgScanId, hr] using h1
      simp [h3]
    | some pr =>
      obtain ⟨f0, fs⟩ := pr
      have h3 : hasDevice st.devices f0.scan_id = false := by
        simpa [scanMsgScanId, hr] using h1
      simp [h3]
  · unfold scanFinished
    rw [lookupDevice_eq_none_of_hasDevice_false h2]

/-- Witness for C10 at a concrete state and a stale message. -/
theorem stale_scan_events_discarded_witness :
    scanMessageReceived exampleStateScanned exampleScanMsg true =
      exampleStateScanned ∧
    scanFinished examplePrefs exampleJobCodePrompting false
        exampleStateScanned 9 =
      (exampleStateScanned, ScanFinishedAction.noAction) :=
  stale_scan_events_discarded examplePrefs exampleJobCodePrompting false
    exampleStateScanned exampleScanMsg true 9 (by decide) (by decide)

/-- C4 fails on the code: at this concrete request — valid download folders,
backups enabled with autodetection, photos being downloaded, but no
photo-capable backup destination — startDownloadPhase2 reports the missing
destination yet still starts the download (copy workers are launched), so a
missing backup destination is not a blocking diagnostic. -/
theorem missing_backup_destination_does_not_block :
    (startDownloadPhase2 examplePrefs exampleFsAllOk [] ⟨true, false⟩).download_started = true ∧
    backupDestinationsMissing examplePrefs [] ⟨true, false⟩ ≠ none := by
  decide

/-- C4 amended: an invalid or unwritable download folder for a file type
being downloaded blocks the download — a critical blocking diagnostic is
raised and no copy worker is started; the absence of a backup destination
matching a file type being downloaded (backup enabled with autodetection)
is reported as a warning diagnostic but does not block: the download starts
regardless. -/
theorem startDownloadPhase2_blocking_behavior (prefs : Prefs) (env : FsEnv)
    (D : List BackupDevice) (downloading : DownloadTypes) :
    (invalidDownloadFolders prefs env downloading ≠ [] →
      (startDownloadPhase2 prefs env D downloading).blocking_error = true ∧
      (startDownloadPhase2 prefs env D downloading).download_started = false) ∧
    (invalidDownloadFolders prefs env downloading = [] →
      (startDownloadPhase2 prefs env D downloading).blocking_error = false ∧
      (startDownloadPhase2 prefs env D downloading).download_started = true ∧
      (startDownloadPhase2 prefs env D downloading).backup_warning =
        backupDestinationsMissing prefs D downloading) := by
  unfold startDownloadPhase2
  cases hinv : invalidDownloadFolders prefs env downloading with
  | nil => simp
  | cons a l => simp

/-- Witness for C4 amended: an unwritable photo folder blocks the download at
a concrete request. -/
theorem startDownloadPhase2_blocking_behavior_witness :
    (startDownloadPhase2 examplePrefs exampleFsNone [] ⟨true, false⟩).blocking_error = true ∧
    (startDownloadPhase2 examplePrefs exampleFsNone [] ⟨true, false⟩).download_started = false :=
  (startDownloadPhase2_blocking_behavior examplePrefs exampleFsNone []
    ⟨true, false⟩).1 (by decide)

/-- C6 fails on the code: with manual configuration, a path literally equal
to the configured photo destination but not writable resolves to no
capability at all, while the claim's literal-equality reading assigns it the
photo capability — so the capability is not determined by path equality
alone. -/
theorem manual_backup_capability_not_by_equality_alone :
    isBackupPath examplePrefsManual exampleFsNone "/b" = none ∧
    claimManualCapability examplePrefsManual "/b" =
      some BackupLocationType.photos := by
  decide

/-- C6 amended: with backups enabled — under autodetection the capability is
photos-and-videos exactly when both writable marker subfolders are present,
the matching single capability when exactly one is, and none when neither
is; without autodetection the capability is determined by literal equality
with the configured photo destination (checked first) or else the video
destination, together with the path being writable. -/
theorem isBackupPath_resolution (prefs : Prefs) (env : FsEnv) (path : String)
    (hb : prefs.backup_files = true) :
    (prefs.backup_device_autodetection = true →
      (isBackupPath prefs env path = some BackupLocationType.photos_and_videos ↔
        photoMarkerOk prefs env path = true ∧ videoMarkerOk prefs env path = true) ∧
      (isBackupPath prefs env path = some BackupLocationType.photos ↔
        photoMarkerOk prefs env path = true ∧ videoMarkerOk prefs env path = false) ∧
      (isBackupPath prefs env path = some BackupLocationType.videos ↔
        photoMarkerOk prefs env path = false ∧ videoMarkerOk prefs env path = true) ∧
      (isBackupPath prefs env path = none ↔
        photoMarkerOk prefs env path = false ∧ videoMarkerOk prefs env path = false)) ∧
    (prefs.backup_device_autodetection = false →
      (isBackupPath prefs env path = some BackupLocationType.photos ↔
        path = prefs.backup_photo_location ∧ env.writable path = true) ∧
      (isBackupPath prefs env path = some BackupLocationType.videos ↔
        path ≠ prefs.backup_photo_location ∧
        path = prefs.backup_video_location ∧ env.writable path = true)) := by
  constructor
  · intro ha
    have hiso : isBackupPath prefs env path =
        (if photoMarkerOk prefs env path && videoMarkerOk prefs env path then
          some BackupLocationType.photos_and_videos
        else if photoMarkerOk prefs env path then
          some BackupLocationType.photos
        else if videoMarkerOk prefs env path then
          some BackupLocationType.videos
        else none) := by
      simp [isBackupPath, hb, ha, photoMarkerOk, videoMarkerOk]
    rw [hiso]
    cases hp : photoMarkerOk prefs env path <;>
      cases hv : videoMarkerOk prefs env path <;> simp
  · intro ha
    by_cases h1 : path = prefs.backup_photo_location <;>
      by_cases h2 : path = prefs.backup_video_location <;>
      by_cases h3 : env.writable path <;>
      simp_all [isBackupPath, manualBackupPathAvailable]

/-- Witness for C6 amended: resolution of a concrete manual configuration. -/
theorem isBackupPath_resolution_witness :
    isBackupPath examplePrefsManual exampleFsAllOk "/b" =
        some BackupLocationType.photos ↔
      "/b" = examplePrefsManual.backup_photo_location ∧
      exampleFsAllOk.writable "/b" = true :=
  ((isBackupPath_resolution examplePrefsManual exampleFsAllOk "/b" rfl).2
    rfl).1

theorem applyByteUpdates_le (x : Nat) (updates : List Nat) :
    applyByteUpdates x updates ≤ x := by
  induction updates generalizing x with
  | nil => exact Nat.le_refl x
  | cons b bs ih =>
    calc applyByteUpdates x (b :: bs) = applyByteUpdates (x - b) bs := rfl
    _ ≤ x - b := ih (x - b)
    _ ≤ x := Nat.sub_le x b

/-- C7: at a constant positive transfer rate, the remaining-time figure is
monotonically non-increasing as successive byte-transferred updates are
applied, and it equals zero once the outstanding byte count reaches zero. -/
theorem timeRemaining_nonincreasing_and_zero (rate : ℚ) (hr : 0 < rate)
    (outstanding : Nat) (us vs : List Nat) :
    timeRemainingSecs rate (applyByteUpdates outstanding (us ++ vs)) ≤
      timeRemainingSecs rate (applyByteUpdates outstanding us) ∧
    (applyByteUpdates outstanding us = 0 →
      timeRemainingSecs rate (applyByteUpdates outstanding us) = 0) := by
  constructor
  · have hsplit : applyByteUpdates outstanding (us ++ vs) =
        applyByteUpdates (applyByteUpdates outstanding us) vs := by
      simp [applyByteUpdates, List.foldl_append]
    rw [hsplit]
    unfold timeRemainingSecs
    refine (div_le_div_iff_of_pos_right hr).mpr ?_
    exact_mod_cast applyByteUpdates_le (applyByteUpdates outstanding us) vs
  · intro h
    rw [h]
    unfold timeRemainingSecs
    simp

/-- Witness for C7 at a concrete rate and update sequence. -/
theorem timeRemaining_nonincreasing_and_zero_witness :
    timeRemainingSecs 2 (applyByteUpdates 10 ([3] ++ [4])) ≤
      timeRemainingSecs 2 (applyByteUpdates 10 [3]) ∧
    (applyByteUpdates 10 [3] = 0 →
      timeRemainingSecs 2 (applyByteUpdates 10 [3]) = 0) :=
  timeRemaining_nonincreasing_and_zero 2 (by norm_num) 10 [3] [4]

/-- C3 fails on the code: at this concrete state — one registered device that
finished scanning but never downloaded, nothing actively downloading —
global completion is reported although the device is neither Completed nor
Removed (the code in fact never assigns a Completed state: a finished device
is set back to scanned, rapid.py line 1754). -/
theorem completion_reported_with_scanned_device :
    globalCompletionReported examplePrefsNoBackup exampleStateScanned = true ∧
    allDevicesCompletedOrRemoved exampleStateScanned = false := by
  decide

/-- C3 amended: provided the active-download set tracks exactly the devices
in the Downloading state, global completion is reported if and only if no
registered device is Downloading and — when backup is enabled — all files'
backups have settled. -/
theorem globalCompletion_iff_no_device_downloading (prefs : Prefs)
    (st : OrchState)
    (h1 : ∀ p ∈ st.devices, (p.2.state == DeviceState.downloading) =
      st.active_downloads_by_scan_id.contains p.1)
    (h2 : ∀ sid ∈ st.active_downloads_by_scan_id, ∃ p ∈ st.devices,
      p.1 = sid ∧ p.2.state = DeviceState.downloading) :
    globalCompletionReported prefs st = true ↔
      ((∀ p ∈ st.devices, p.2.state ≠ DeviceState.downloading) ∧
       (prefs.backup_files = true →
         st.tracker_all_files_backed_up = true)) := by
  unfold globalCompletionReported downloadIsRunning
  cases hact : st.active_downloads_by_scan_id with
  | nil =>
    rw [hact] at h1
    have hnod : ∀ p ∈ st.devices, p.2.state ≠ DeviceState.downloading := by
      intro p hp
      have hb := h1 p hp
      simp at hb
      exact hb
    cases hbf : prefs.backup_files with
    | false =>
      simp [hnod]
      intro a b hab
      exact hnod (a, b) hab
    | true =>
      cases htr : st.tracker_all_files_backed_up with
      | false => simp [hnod]
      | true =>
        simp [hnod]
        intro a b hab
        exact hnod (a, b) hab
  | cons a tl =>
    rw [hact] at h2
    obtain ⟨p, hp, hpa, hpd⟩ := h2 a (List.mem_cons_self a tl)
    constructor
    · intro hL
      exfalso
      simp at hL
    · intro hR
      exact absurd hpd (hR.1 p hp)

/-- Witness for C3 amended at a concrete coherent state. -/
theorem globalCompletion_iff_no_device_downloading_witness :
    globalCompletionReported examplePrefs exampleStateScanned = true ↔
      ((∀ p ∈ exampleStateScanned.devices,
          p.2.state ≠ DeviceState.downloading) ∧
       (examplePrefs.backup_files = true →
         exampleStateScanned.tracker_all_files_backed_up = true)) :=
  globalCompletion_iff_no_device_downloading examplePrefs exampleStateScanned
    (by decide) (by decide)

theorem backupFile_forall₂ (prefs : Prefs) (D : List BackupDevice)
    (f : RPDFileRec) (move_succeeded : Bool) (dc : Nat) :
    List.Forall₂ (fun (dev : BackupDevice) (msg : String × BackupFileData) =>
        msg.1 = dev.path ∧ msg.2.uid = f.unique_id ∧
        msg.2.do_backup = do_backup_for dev.backup_type f.file_type)
      D (backupFile prefs D f move_succeeded dc) := by
  induction D with
  | nil => exact List.Forall₂.nil
  | cons d ds ih => exact List.Forall₂.cons ⟨rfl, rfl, rfl⟩ ih

/-- C9: when backup is enabled and some destination can back up the file's
type, fileRenamedAndMoved dispatches one backup request per registered
destination — the request for each destination carries the do_backup flag
equal to whether its capability matches the file's type, so non-matching
destinations receive the request with do_backup false and every destination
produces a result for the file. -/
theorem backup_requests_to_every_destination (prefs : Prefs)
    (D : List BackupDevice) (f : RPDFileRec) (move_succeeded : Bool)
    (dc : Nat) (h1 : prefs.backup_files = true)
    (h2 : backup_possible D f.file_type = true) :
    fileRenamedAndMoved prefs D f move_succeeded dc =
      RenameMovedOutcome.backupRequests
        (backupFile prefs D f move_succeeded dc) ∧
    List.Forall₂ (fun (dev : BackupDevice) (msg : String × BackupFileData) =>
        msg.1 = dev.path ∧ msg.2.uid = f.unique_id ∧
        msg.2.do_backup = do_backup_for dev.backup_type f.file_type)
      D (backupFile prefs D f move_succeeded dc) :=
  ⟨by simp [fileRenamedAndMoved, h1, h2],
   backupFile_forall₂ prefs D f move_succeeded dc⟩

/-- Witness for C9 with two destinations, only one matching the photo file:
the video destination still receives the request (with do_backup false). -/
theorem backup_requests_to_every_destination_witness :
    fileRenamedAndMoved examplePrefs exampleTwoBackupDevices examplePhotoFile
        true 1 =
      RenameMovedOutcome.backupRequests
        (backupFile examplePrefs exampleTwoBackupDevices examplePhotoFile
          true 1) ∧
    List.Forall₂ (fun (dev : BackupDevice) (msg : String × BackupFileData) =>
        msg.1 = dev.path ∧ msg.2.uid = examplePhotoFile.unique_id ∧
        msg.2.do_backup =
          do_backup_for dev.backup_type examplePhotoFile.file_type)
      exampleTwoBackupDevices
      (backupFile examplePrefs exampleTwoBackupDevices examplePhotoFile
        true 1) :=
  backup_requests_to_every_destination examplePrefs exampleTwoBackupDevices
    examplePhotoFile true 1 rfl (by decide)

theorem bump_list (uid : String) (l : List (String × Nat)) :
    ((((if (l.find? fun p => p.1 == uid).isSome then
          l.map fun p => if p.1 == uid then (p.1, p.2 + 1) else p
        else (uid, 1) :: l).find? fun p => p.1 == uid).map Prod.snd).getD 0) =
      ((((l.find? fun p => p.1 == uid).map Prod.snd).getD 0) + 1) := by
  induction l with
  | nil => simp
  | cons a l ih =>
    by_cases h : (a.1 == uid) = true
    · have hf : ((a :: l).find? fun p => p.1 == uid) = some a :=
        List.find?_cons_of_pos l h
      rw [hf]
      simp only [Option.isSome_some, if_true, List.map_cons, if_pos h]
      rw [List.find?_cons_of_pos
        (List.map (fun p => if (p.1 == uid) = true then (p.1, p.2 + 1) else p) l)
        (show (((a.1, a.2 + 1) : String × Nat).1 == uid) = true from h)]
      simp
    · have hf : ((a :: l).find? fun p => p.1 == uid) =
          l.find? fun p => p.1 == uid :=
        List.find?_cons_of_neg l (by simpa using h)
      rw [hf]
      by_cases hs : ((l.find? fun p => p.1 == uid).isSome) = true
      · rw [if_pos hs]
        rw [if_pos hs] at ih
        simp only [List.map_cons, if_neg h]
        rw [List.find?_cons_of_neg _ (by simpa using h)]
        exact ih
      · rw [if_neg hs]
        rw [List.find?_cons_of_pos _ (by simp)]
        have hnone : (l.find? fun p => p.1 == uid) = none := by
          cases hfl : l.find? fun p => p.1 == uid
          · rfl
          · rw [hfl] at hs; simp at hs
        rw [hnone]
        simp

theorem backupsPerformed_file_backed_up (t : BackupTracker) (uid : String) :
    backupsPerformed (file_backed_up t uid) uid =
      backupsPerformed t uid + 1 := by
  unfold backupsPerformed file_backed_up
  exact bump_list uid t.backups_performed

theorem no_devices_for_file_backed_up (t : BackupTracker) (uid : String)
    (ft : FileType) :
    no_devices_for (file_backed_up t uid) ft = no_devices_for t ft := by
  cases ft <;> rfl

theorem foldl_backup_snd (ms : List BackupResultMsg) (t : BackupTracker)
    (b : Bool) :
    (List.foldl (fun acc m =>
        ((fileBackedUp acc.1 m).1, acc.2 || (fileBackedUp acc.1 m).2))
      (t, b) ms).2 =
      (b || (List.foldl (fun acc m =>
          ((fileBackedUp acc.1 m).1, acc.2 || (fileBackedUp acc.1 m).2))
        (t, false) ms).2) := by
  induction ms generalizing t b with
  | nil => simp
  | cons m ms ih =>
    simp only [List.foldl_cons]
    rw [ih ((fileBackedUp t m).1) (b || (fileBackedUp t m).2),
        ih ((fileBackedUp t m).1) (false || (fileBackedUp t m).2)]
    cases b <;> cases (fileBackedUp t m).2 <;> simp

theorem processBackupResults_cons (t : BackupTracker) (m : BackupResultMsg)
    (ms : List BackupResultMsg) :
    (processBackupResults t (m :: ms)).2 =
      ((fileBackedUp t m).2 ||
        (processBackupResults (fileBackedUp t m).1 ms).2) := by
  unfold processBackupResults
  simp only [List.foldl_cons]
  rw [foldl_backup_snd]
  simp

theorem processBackupResults_triggered (uid : String) (ft : FileType)
    (ms : List BackupResultMsg) (t : BackupTracker)
    (hm : ∀ m ∈ ms, m.uid = uid ∧ m.file_type = ft) :
    (processBackupResults t ms).2 =
      decide (backupsPerformed t uid < no_devices_for t ft ∧
        no_devices_for t ft ≤ backupsPerformed t uid + countTrue ms) := by
  induction ms generalizing t with
  | nil =>
    have hno : ¬ (backupsPerformed t uid < no_devices_for t ft ∧
        no_devices_for t ft ≤
          backupsPerformed t uid + countTrue ([] : List BackupResultMsg)) := by
      simp only [countTrue, List.filter_nil, List.length_nil]
      omega
    simp [processBackupResults, hno]
  | cons m ms ih =>
    have hu : m.uid = uid := (hm m (List.mem_cons_self m ms)).1
    have hft : m.file_type = ft := (hm m (List.mem_cons_self m ms)).2
    have hms : ∀ x ∈ ms, x.uid = uid ∧ x.file_type = ft := fun x hx =>
      hm x (List.mem_cons_of_mem m hx)
    rw [processBackupResults_cons]
    cases hd : m.do_backup with
    | false =>
      have hfb : fileBackedUp t m = (t, false) := by simp [fileBackedUp, hd]
      rw [hfb]
      simp only [Bool.false_or]
      rw [ih t hms]
      have hct : countTrue (m :: ms) = countTrue ms := by simp [countTrue, hd]
      rw [hct]
    | true =>
      have hfb : fileBackedUp t m = (file_backed_up t uid,
          file_backed_up_to_all_locations (file_backed_up t uid) uid ft) := by
        simp [fileBackedUp, hd, hu, hft]
      rw [hfb]
      rw [ih (file_backed_up t uid) hms]
      have hct : countTrue (m :: ms) = countTrue ms + 1 := by
        simp [countTrue, hd]
      rw [hct]
      unfold file_backed_up_to_all_locations
      rw [backupsPerformed_file_backed_up t uid,
          no_devices_for_file_backed_up t uid ft]
      rw [Bool.eq_iff_iff]
      simp only [Bool.or_eq_true, beq_iff_eq, decide_eq_true_eq]
      omega

theorem forall₂_exists_left {α β : Type} {R : α → β → Prop}
    {l1 : List α} {l2 : List β} (h : List.Forall₂ R l1 l2) :
    ∀ b ∈ l2, ∃ a ∈ l1, R a b := by
  induction h with
  | nil => intro y hy; exact absurd hy (List.not_mem_nil y)
  | cons h1 h2 ih =>
    intro y hy
    rcases List.mem_cons.mp hy with heq | hmem
    · subst heq; exact ⟨_, List.mem_cons_self _ _, h1⟩
    · obtain ⟨x, hx, hr⟩ := ih y hmem
      exact ⟨x, List.mem_cons_of_mem _ hx, hr⟩

theorem forall₂_exists_right {α β : Type} {R : α → β → Prop}
    {l1 : List α} {l2 : List β} (h : List.Forall₂ R l1 l2) :
    ∀ a ∈ l1, ∃ b ∈ l2, R a b := by
  induction h with
  | nil => intro y hy; exact absurd hy (List.not_mem_nil y)
  | cons h1 h2 ih =>
    intro y hy
    rcases List.mem_cons.mp hy with heq | hmem
    · subst heq; exact ⟨_, List.mem_cons_self _ _, h1⟩
    · obtain ⟨x, hx, hr⟩ := ih y hmem
      exact ⟨x, List.mem_cons_of_mem _ hx, hr⟩

theorem countTrue_of_forall₂ {ft : FileType} {uid : String}
    {sub : List BackupDevice} {responses : List BackupResultMsg}
    (h : List.Forall₂ (fun (dev : BackupDevice) (r : BackupResultMsg) =>
        r.device_id = dev.path ∧
        r.do_backup = do_backup_for dev.backup_type ft ∧
        r.uid = uid ∧ r.file_type = ft) sub responses) :
    countTrue responses =
      (sub.filter fun d => do_backup_for d.backup_type ft).length := by
  induction h with
  | nil => rfl
  | cons h1 h2 ih =>
    simp only [countTrue, List.filter_cons] at ih ⊢
    rw [h1.2.1]
    cases hdb : do_backup_for _ _ <;> simp_all

/-- C1 fails on the code: at this concrete configuration — one photo-capable
destination, a photo file, and a backup result that reports failure —
fileBackedUp still records the result and fileDownloadFinished fires, so the
file is treated as fully backed up without a successful result from every
matching destination (rapid.py line 1632 records results with no regard to
backup_succeeded). -/
theorem failed_backup_still_counts_as_fully_backed_up :
    treatedFullyBackedUp examplePrefs exampleTracker exampleBackupDevices
        examplePhotoFile true 1 [exampleFailedResponse] = true ∧
    successfulFromAllMatching exampleBackupDevices FileType.photo
        [exampleFailedResponse] = false := by
  decide

/-- C1 amended: a file is treated as fully backed up — triggering
fileDownloadFinished — if and only if it has received a backup result,
successful or not, from every currently registered backup destination whose
capability matches its file type; this holds for zero, one or many matching
destinations.  The hypotheses say that the tracker's destination counts
agree with the registry, that the file is fresh to the tracker, that
destination paths are distinct, and that the results received so far come
from distinct registered destinations carrying the do_backup flag that
backupFile put in the corresponding request. -/
theorem treatedFullyBackedUp_iff_result_from_every_matching (prefs : Prefs)
    (t : BackupTracker) (D sub : List BackupDevice) (f : RPDFileRec)
    (move_succeeded : Bool) (dc : Nat) (responses : List BackupResultMsg)
    (h1 : prefs.backup_files = true)
    (hcp : t.no_photo_backup_devices = no_photo_backup_devices D)
    (hcv : t.no_video_backup_devices = no_video_backup_devices D)
    (hfresh : backupsPerformed t f.unique_id = 0)
    (hnd : (D.map fun d => d.path).Nodup)
    (hsub : sub.Sublist D)
    (hresp : List.Forall₂ (fun (dev : BackupDevice) (r : BackupResultMsg) =>
        r.device_id = dev.path ∧
        r.do_backup = do_backup_for dev.backup_type f.file_type ∧
        r.uid = f.unique_id ∧ r.file_type = f.file_type) sub responses) :
    treatedFullyBackedUp prefs t D f move_succeeded dc responses = true ↔
      resultFromAllMatching D f.file_type responses = true := by
  have hn : no_devices_for t f.file_type =
      no_backup_devices_for D f.file_type := by
    cases hft : f.file_type
    · simpa [no_devices_for, no_photo_backup_devices] using hcp
    · simpa [no_devices_for, no_video_backup_devices] using hcv
  by_cases hbp : backup_possible D f.file_type = true
  · have ht : treatedFullyBackedUp prefs t D f move_succeeded dc responses =
        (processBackupResults t responses).2 := by
      unfold treatedFullyBackedUp fileRenamedAndMoved
      simp [h1, hbp]
    rw [ht]
    have hmr : ∀ r ∈ responses,
        r.uid = f.unique_id ∧ r.file_type = f.file_type := by
      intro r hr
      obtain ⟨dev, hdev, hR⟩ := forall₂_exists_left hresp r hr
      exact ⟨hR.2.2.1, hR.2.2.2⟩
    rw [processBackupResults_triggered f.unique_id f.file_type responses t hmr]
    rw [hfresh, hn]
    have hk : countTrue responses =
        (sub.filter fun d => do_backup_for d.backup_type f.file_type).length :=
      countTrue_of_forall₂ hresp
    have hksub :
        (sub.filter fun d => do_backup_for d.backup_type f.file_type).length ≤
          no_backup_devices_for D f.file_type := by
      unfold no_backup_devices_for
      exact (hsub.filter _).length_le
    have hpos : 0 < no_backup_devices_for D f.file_type := by
      unfold backup_possible at hbp
      rw [List.any_eq_true] at hbp
      obtain ⟨d, hd, hdb⟩ := hbp
      unfold no_backup_devices_for
      exact List.length_pos_of_mem (List.mem_filter.mpr ⟨hd, hdb⟩)
    simp only [decide_eq_true_eq]
    constructor
    · rintro ⟨hpos2, hle⟩
      have heq :
          (sub.filter fun d => do_backup_for d.backup_type f.file_type).length =
            no_backup_devices_for D f.file_type := by omega
      have hfeq :
          (sub.filter fun d => do_backup_for d.backup_type f.file_type) =
            D.filter fun d => do_backup_for d.backup_type f.file_type :=
        (hsub.filter _).eq_of_length (by rw [heq]; rfl)
      unfold resultFromAllMatching
      rw [List.all_eq_true]
      intro dev hdev
      by_cases hmatch : do_backup_for dev.backup_type f.file_type = true
      · have hdevf : dev ∈
            D.filter fun d => do_backup_for d.backup_type f.file_type :=
          List.mem_filter.mpr ⟨hdev, hmatch⟩
        rw [← hfeq] at hdevf
        have hdevsub : dev ∈ sub := (List.mem_filter.mp hdevf).1
        obtain ⟨r, hrresp, hR⟩ := forall₂_exists_right hresp dev hdevsub
        simp only [Bool.or_eq_true, List.any_eq_true]
        refine Or.inr ⟨r, hrresp, ?_⟩
        rw [hR.1, hR.2.1, hmatch]
        simp
      · have hmf : do_backup_for dev.backup_type f.file_type = false := by
          simpa using hmatch
        simp [hmf]
    · intro hall
      refine ⟨hpos, ?_⟩
      have hsubset : ∀ dev ∈
          (D.filter fun d => do_backup_for d.backup_type f.file_type),
          dev ∈ sub.filter fun d => do_backup_for d.backup_type f.file_type := by
        intro dev hdev
        obtain ⟨hdevD, hdevP⟩ := List.mem_filter.mp hdev
        unfold resultFromAllMatching at hall
        rw [List.all_eq_true] at hall
        have h5 := hall dev hdevD
        rw [Bool.or_eq_true] at h5
        rcases h5 with h5 | h5
        · rw [hdevP] at h5; simp at h5
        · rw [List.any_eq_true] at h5
          obtain ⟨r, hrresp, hr2⟩ := h5
          rw [Bool.and_eq_true, beq_iff_eq] at hr2
          obtain ⟨hpath, hdb⟩ := hr2
          obtain ⟨a, hasub, hR⟩ := forall₂_exists_left hresp r hrresp
          have haD : a ∈ D := hsub.subset hasub
          have hpa : a.path = dev.path := by rw [← hR.1, hpath]
          have haeq : a = dev := List.inj_on_of_nodup_map hnd haD hdevD hpa
          exact List.mem_filter.mpr ⟨haeq ▸ hasub, hdevP⟩
      have hndD : D.Nodup := List.Nodup.of_map _ hnd
      have hndf : ((D.filter fun d =>
          do_backup_for d.backup_type f.file_type)).Nodup :=
        hndD.filter _
      have hlen :
          (D.filter fun d => do_backup_for d.backup_type f.file_type).length ≤
            (sub.filter fun d =>
              do_backup_for d.backup_type f.file_type).length :=
        (hndf.subperm fun a ha => hsubset a ha).length_le
      rw [hk]
      unfold no_backup_devices_for
      omega
  · have hbp' : backup_possible D f.file_type = false := by simpa using hbp
    have ht : treatedFullyBackedUp prefs t D f move_succeeded dc responses =
        true := by
      unfold treatedFullyBackedUp fileRenamedAndMoved
      simp [h1, hbp']
    rw [ht]
    have hall : resultFromAllMatching D f.file_type responses = true := by
      unfold resultFromAllMatching
      rw [List.all_eq_true]
      intro dev hdev
      unfold backup_possible at hbp'
      rw [List.any_eq_false] at hbp'
      have := hbp' dev hdev
      simp_all
    rw [hall]

/-- Witness for C1 amended: one matching destination, one received result. -/
theorem treatedFullyBackedUp_iff_witness :
    treatedFullyBackedUp examplePrefs exampleTracker exampleBackupDevices
        examplePhotoFile true 1 [exampleOkResponse] = true ↔
      resultFromAllMatching exampleBackupDevices FileType.photo
        [exampleOkResponse] = true :=
  treatedFullyBackedUp_iff_result_from_every_matching examplePrefs
    exampleTracker exampleBackupDevices exampleBackupDevices examplePhotoFile
    true 1 [exampleOkResponse] rfl (by decide) (by decide) (by decide)
    (by decide) (List.Sublist.refl _)
    (List.Forall₂.cons ⟨rfl, rfl, rfl, rfl⟩ List.Forall₂.nil)

end Raphodo
